import Mathlib

/-!
Shallow embedding of the wavvy-app real-time proctoring / strike-escalation
engine, and proofs of its specified properties.

The definitions below are direct translations of:
  * `src/hooks/useStrikeSystem.ts`        (strike ledger)
  * `src/hooks/useInterviewProctoring.ts` (proctoring facade)
  * `src/hooks/useBrowserGuard.ts`        (browser-behavior monitor)
  * `src/hooks/useFaceMonitor.ts`         (face/pose monitor and per-signal
                                           violation trackers)
  * `src/lib/face-detection/detect-facial-details.ts` (head-pose classifier)

Times are modelled as natural-number millisecond timestamps (the source uses
`Date.now()`); React state cells become fields of explicit state records, and
each event handler becomes a state-transition function.
-/

namespace Wavvy

/-! ### Types (`useStrikeSystem.ts`) -/

/-- `ViolationType` from `useStrikeSystem.ts`. -/
inductive ViolationType where
  | NO_FACE
  | MULTIPLE_FACES
  | LOOKING_AWAY
  | CAMERA_OFF
  | TAB_SWITCH
deriving DecidableEq, Repr

/-- `Violation` record from `useStrikeSystem.ts`. -/
structure Violation where
  type : ViolationType
  timestamp : Nat
  message : String
deriving DecidableEq, Repr

/-- `StrikeSeverity` from `useStrikeSystem.ts`. -/
inductive StrikeSeverity where
  | warning
  | final
  | terminal
deriving DecidableEq, Repr

/-- `StrikeNotification` record from `useStrikeSystem.ts`. -/
structure StrikeNotification where
  severity : StrikeSeverity
  title : String
  body : String
  dismissible : Bool
  autoDismissMs : Option Nat
deriving DecidableEq, Repr

/-- `NOTIFICATION_CONFIG.TERMINATION_DELAY_MS` from `useStrikeSystem.ts`. -/
def TERMINATION_DELAY_MS : Nat := 3000

/-- `VIOLATION_TITLES` lookup table from `useStrikeSystem.ts`. -/
def VIOLATION_TITLES : ViolationType → String
  | .TAB_SWITCH => "Please stay in this window"
  | .NO_FACE => "Please ensure you are visible"
  | .MULTIPLE_FACES => "Multiple people detected"
  | .LOOKING_AWAY => "Please stay focused on the screen"
  | .CAMERA_OFF => "Camera connection issue"

/-! ### Notification builder (`buildNotification`, `useStrikeSystem.ts`) -/

/-- `buildNotification(violation, currentStrikes, maxStrikes)` from
`useStrikeSystem.ts`: classifies severity and builds title/body/dismissible. -/
def buildNotification (violation : Violation) (currentStrikes maxStrikes : Nat) :
    StrikeNotification :=
  let isTerminal : Bool := currentStrikes ≥ maxStrikes
  let isFinalWarning : Bool := currentStrikes = maxStrikes - 1
  let severity : StrikeSeverity :=
    if isTerminal then .terminal
    else if isFinalWarning then .final
    else .warning
  let title := VIOLATION_TITLES violation.type
  let body : String :=
    if isTerminal then
      "Your interview session has ended.\n\n" ++ violation.message
    else if isFinalWarning then
      "FINAL WARNING: " ++ violation.message ++
        "\n\nOne more violation will terminate your interview."
    else
      let remaining := maxStrikes - currentStrikes
      violation.message ++ "\n\n" ++ toString remaining ++ " " ++
        (if remaining = 1 then "warning" else "warnings") ++ " remaining."
  let dismissible := !isTerminal
  let autoDismissMs : Option Nat := none
  { severity := severity, title := title, body := body,
    dismissible := dismissible, autoDismissMs := autoDismissMs }

/-! ### Strike ledger state (`useStrikeSystem` hook state) -/

/-- The ledger state of `useStrikeSystem`: the four `useState` cells plus the
`terminationRef` timer handle (modelled as a pending flag: a termination
timeout is currently scheduled). -/
structure StrikeState where
  strikes : Nat
  violations : List Violation
  notification : Option StrikeNotification
  isTerminated : Bool
  pendingTermination : Bool
deriving DecidableEq, Repr

/-- Initial hook state: `strikes = 0`, empty log, no notification, not
terminated, no timer scheduled. -/
def initialStrikeState : StrikeState :=
  { strikes := 0, violations := [], notification := none,
    isTerminated := false, pendingTermination := false }

/-- `addStrike(violation)` from `useStrikeSystem.ts`.  `hasOnTerminated`
records whether an `onTerminated` callback was supplied in the options (the
timer is only scheduled when it is). -/
def addStrike (maxStrikes : Nat) (hasOnTerminated : Bool) (s : StrikeState)
    (violation : Violation) : StrikeState :=
  if s.isTerminated then s
  else
    let newStrikes := s.strikes + 1
    let isTerminal : Bool := newStrikes ≥ maxStrikes
    let notif := buildNotification violation newStrikes maxStrikes
    { strikes := newStrikes,
      violations := s.violations ++ [violation],
      notification := some notif,
      isTerminated := if isTerminal then true else s.isTerminated,
      pendingTermination :=
        if isTerminal then hasOnTerminated else s.pendingTermination }

/-- `dismissNotification()` from `useStrikeSystem.ts`: clears the current
notification only when it is dismissible. -/
def dismissNotification (s : StrikeState) : StrikeState :=
  match s.notification with
  | some n => if n.dismissible then { s with notification := none } else s
  | none => s

/-- `reset()` from `useStrikeSystem.ts`: clears the termination timer and all
four state cells. -/
def reset (_s : StrikeState) : StrikeState := initialStrikeState

/-- The scheduled termination timeout firing: invokes `onTerminated` (the
returned `Bool`) only when a timer is actually pending, and clears the
handle. -/
def fireTermination (s : StrikeState) : StrikeState × Bool :=
  if s.pendingTermination then ({ s with pendingTermination := false }, true)
  else (s, false)

/-- Folding a sequence of `addStrike` calls over the ledger. -/
def runStrikes (maxStrikes : Nat) (hasOnTerminated : Bool) (s : StrikeState) :
    List Violation → StrikeState
  | [] => s
  | v :: vs => runStrikes maxStrikes hasOnTerminated
      (addStrike maxStrikes hasOnTerminated s v) vs

/-! ### Proctoring facade (`useInterviewProctoring.ts`) -/

/-- Possible behaviours of the configured `onViolationLogged` collaborator:
it may return normally (or with a fulfilled promise), return a rejected
promise, or throw synchronously. -/
inductive LogOutcome where
  | success
  | rejects
  | throwsSync
deriving DecidableEq, Repr

/-- `handleViolation(type, message)` from `useInterviewProctoring.ts`.
`hasLogger` records whether `onViolationLogged` is configured and `outcome`
how that call behaves.  Returns the new ledger state together with `true`
when an exception escapes `handleViolation` to its caller.

The source calls `addStrike(violation)` and then
`Promise.resolve(onViolationLogged(violation)).catch(...)`: a rejected
promise is caught by the attached handler, but a synchronous throw happens
while evaluating the argument of `Promise.resolve`, before any handler is
attached, and so propagates. -/
def handleViolation (maxStrikes : Nat) (hasOnTerminated hasLogger : Bool)
    (outcome : LogOutcome) (s : StrikeState) (type : ViolationType)
    (timestamp : Nat) (message : String) : StrikeState × Bool :=
  if s.isTerminated then (s, false)
  else
    let violation : Violation :=
      { type := type, timestamp := timestamp, message := message }
    let s' := addStrike maxStrikes hasOnTerminated s violation
    let escaped := hasLogger && (outcome matches .throwsSync)
    (s', escaped)

/-! ### Face monitor configuration and tracker (`useFaceMonitor.ts`) -/

/-- `FaceViolation` from `useFaceMonitor.ts`. -/
inductive FaceViolation where
  | NO_FACE
  | MULTIPLE_FACES
  | LOOKING_AWAY
  | CAMERA_OFF
deriving DecidableEq, Repr

/-- `CONFIG.NO_FACE_THRESHOLD` (ms). -/
def NO_FACE_THRESHOLD : Nat := 10000

/-- `CONFIG.LOOKING_AWAY_THRESHOLD` (ms). -/
def LOOKING_AWAY_THRESHOLD : Nat := 2000

/-- `CONFIG.MULTIPLE_FACES_THRESHOLD` (ms). -/
def MULTIPLE_FACES_THRESHOLD : Nat := 0

/-- `CONFIG.CAMERA_OFF_THRESHOLD` (ms). -/
def CAMERA_OFF_THRESHOLD : Nat := 0

/-- `CONFIG.COOLDOWN_MS` (ms) — minimum gap between firings of one kind. -/
def COOLDOWN_MS : Nat := 7500

/-- One entry of `ViolationStateTracker.states`:
`{ startTime: number | null, lastFiredTime: number }`. -/
structure TrackerEntry where
  startTime : Option Nat
  lastFiredTime : Nat
deriving DecidableEq, Repr

/-- The constructor's initial entry: `{ startTime: null, lastFiredTime: 0 }`. -/
def initialEntry : TrackerEntry := { startTime := none, lastFiredTime := 0 }

/-- `ViolationStateTracker.startTiming`: records `now` only when no timing is
in progress. -/
def startTiming (e : TrackerEntry) (now : Nat) : TrackerEntry :=
  match e.startTime with
  | none => { e with startTime := some now }
  | some _ => e

/-- `ViolationStateTracker.resetTiming`: clears `startTime`. -/
def resetTiming (e : TrackerEntry) : TrackerEntry :=
  { e with startTime := none }

/-- `ViolationStateTracker.getDuration`: `Date.now() - startTime`, or 0 when
no timing is in progress. -/
def getDuration (e : TrackerEntry) (now : Nat) : Nat :=
  match e.startTime with
  | none => 0
  | some t0 => now - t0

/-- `ViolationStateTracker.shouldFire`: sustain threshold met and cooldown
elapsed since the last firing. -/
def shouldFire (e : TrackerEntry) (now thresholdMs : Nat) : Bool :=
  getDuration e now ≥ thresholdMs && now - e.lastFiredTime ≥ COOLDOWN_MS

/-- `ViolationStateTracker.markFired`: records `now` as the last firing time;
does not touch `startTime`. -/
def markFired (e : TrackerEntry) (now : Nat) : TrackerEntry :=
  { e with lastFiredTime := now }

/-! ### Head-pose classifier (`detect-facial-details.ts`) -/

/-- `HeadPose` from `detect-facial-details.ts`. -/
inductive HeadPose where
  | CENTER
  | LOOKING_UP
  | LOOKING_DOWN
  | LOOKING_LEFT
  | LOOKING_RIGHT
deriving DecidableEq, Repr

/-- A 2-D landmark point (normalized coordinates, modelled over ℚ). -/
structure Point where
  x : ℚ
  y : ℚ
deriving DecidableEq

/-- `HEAD_POSE_THRESHOLDS.YAW_LEFT`. -/
def YAW_LEFT : ℚ := 1 / 4

/-- `HEAD_POSE_THRESHOLDS.YAW_RIGHT`. -/
def YAW_RIGHT : ℚ := 3 / 4

/-- `HEAD_POSE_THRESHOLDS.PITCH_UP`. -/
def PITCH_UP : ℚ := -1 / 10

/-- `HEAD_POSE_THRESHOLDS.PITCH_DOWN`. -/
def PITCH_DOWN : ℚ := 3 / 20

/-- `analyzeHeadPose(nose, leftEar, rightEar)` from
`detect-facial-details.ts`: quantizes the nose position relative to the ears
into a coarse pose, returning the pose with the yaw/pitch metrics. -/
def analyzeHeadPose (nose leftEar rightEar : Point) : HeadPose × ℚ × ℚ :=
  let faceWidth := rightEar.x - leftEar.x
  let noseRelX := (nose.x - leftEar.x) / faceWidth
  let earYAvg := (leftEar.y + rightEar.y) / 2
  let noseDrop := nose.y - earYAvg
  let yaw := (noseRelX - 1 / 2) * 2
  let pitch := noseDrop
  let pose : HeadPose :=
    if noseDrop < PITCH_UP then .LOOKING_UP
    else if noseDrop > PITCH_DOWN then .LOOKING_DOWN
    else if noseRelX < YAW_LEFT then .LOOKING_LEFT
    else if noseRelX > YAW_RIGHT then .LOOKING_RIGHT
    else .CENTER
  (pose, yaw, pitch)

/-! ### Face monitor detection-tick processing (`useFaceMonitor.ts`,
EFFECT 3, and the camera-hardware handler of EFFECT 2) -/

/-- The suspicious-pose test of CHECK 3: DOWN/LEFT/RIGHT are suspicious,
UP and CENTER are not. -/
def isSuspicious (pose : HeadPose) : Bool :=
  pose = .LOOKING_DOWN || pose = .LOOKING_LEFT || pose = .LOOKING_RIGHT

/-- CHECK 1 of EFFECT 3 (`NO_FACE`), acting on that kind's tracker entry.
Returns the updated entry and whether the violation fired. -/
def noFaceCheck (e : TrackerEntry) (now faceCount : Nat)
    (cameraTrackActive : Bool) : TrackerEntry × Bool :=
  if faceCount = 0 && cameraTrackActive then
    let e1 := startTiming e now
    if shouldFire e1 now NO_FACE_THRESHOLD then (markFired e1 now, true)
    else (e1, false)
  else (resetTiming e, false)

/-- CHECK 2 of EFFECT 3 (`MULTIPLE_FACES`). -/
def multipleFacesCheck (e : TrackerEntry) (now faceCount : Nat) :
    TrackerEntry × Bool :=
  if faceCount > 1 then
    let e1 := startTiming e now
    if shouldFire e1 now MULTIPLE_FACES_THRESHOLD then (markFired e1 now, true)
    else (e1, false)
  else (resetTiming e, false)

/-- CHECK 3 of EFFECT 3 (`LOOKING_AWAY`): times only when exactly one face is
present and its pose is suspicious (DOWN/LEFT/RIGHT); resets otherwise. -/
def lookingAwayCheck (e : TrackerEntry) (now faceCount : Nat)
    (pose : HeadPose) : TrackerEntry × Bool :=
  if faceCount = 1 then
    if isSuspicious pose then
      let e1 := startTiming e now
      if shouldFire e1 now LOOKING_AWAY_THRESHOLD then (markFired e1 now, true)
      else (e1, false)
    else (resetTiming e, false)
  else (resetTiming e, false)

/-- `updateCameraStatus` of EFFECT 2 acting on the `CAMERA_OFF` tracker
entry: when the track is not live-and-enabled it consults `shouldFire`
directly (note: without ever calling `startTiming`); otherwise it resets the
timing. -/
def cameraStatusEvent (e : TrackerEntry) (now : Nat)
    (trackLiveAndEnabled : Bool) : TrackerEntry × Bool :=
  if trackLiveAndEnabled then (resetTiming e, false)
  else
    if shouldFire e now CAMERA_OFF_THRESHOLD then (markFired e now, true)
    else (e, false)

/-- Running the `LOOKING_AWAY` check over a sequence of detection ticks
`(now, faceCount, pose)`, collecting the times at which the violation
fired. -/
def runLookingAway (e : TrackerEntry) :
    List (Nat × Nat × HeadPose) → TrackerEntry × List Nat
  | [] => (e, [])
  | (now, faceCount, pose) :: rest =>
    let step := lookingAwayCheck e now faceCount pose
    let r := runLookingAway step.1 rest
    (r.1, (if step.2 then [now] else []) ++ r.2)

/-! ### Browser guard (`useBrowserGuard.ts`) -/

/-- `CONFIG.TAB_SWITCH_COOLDOWN_MS`. -/
def TAB_SWITCH_COOLDOWN_MS : Nat := 7500

/-- `CONFIG.TAB_SWITCH_GRACE_ENABLED`. -/
def TAB_SWITCH_GRACE_ENABLED : Bool := true

/-- The mutable refs of `useBrowserGuard`: `lastViolationTime` and
`hasSeenTabWarning`. -/
structure GuardState where
  lastViolationTime : Nat
  hasSeenTabWarning : Bool
deriving DecidableEq, Repr

/-- Initial guard state: `lastViolationTime = 0`, grace not yet consumed. -/
def initialGuardState : GuardState :=
  { lastViolationTime := 0, hasSeenTabWarning := false }

/-- What a `visibilitychange` event produced: a non-penalty grace notice
(`onActionBlocked('TAB_SWITCH_GRACE', ...)`) or a `TAB_SWITCH` violation
(`onViolation`). -/
inductive GuardEvent where
  | graceNotice
  | tabSwitchViolation
deriving DecidableEq, Repr

/-- `triggerViolation` from `useBrowserGuard.ts`: suppressed inside the
cooldown window, otherwise records the firing time and emits the
violation. -/
def triggerViolation (s : GuardState) (now : Nat) :
    GuardState × Option GuardEvent :=
  if now - s.lastViolationTime < TAB_SWITCH_COOLDOWN_MS then (s, none)
  else ({ s with lastViolationTime := now }, some .tabSwitchViolation)

/-- `handleVisibilityChange` from `useBrowserGuard.ts`.  `documentHidden` is
`document.hidden` at the time of the event; `hasOnActionBlocked` records
whether the optional `onActionBlocked` callback is wired (the grace flag is
consumed either way, the notice is only delivered when wired). -/
def handleVisibilityChange (hasOnActionBlocked : Bool) (s : GuardState)
    (now : Nat) (documentHidden : Bool) : GuardState × Option GuardEvent :=
  if !documentHidden then (s, none)
  else if TAB_SWITCH_GRACE_ENABLED && !s.hasSeenTabWarning then
    ({ s with hasSeenTabWarning := true },
     if hasOnActionBlocked then some .graceNotice else none)
  else triggerViolation s now

/-- Deactivating the guard (`isActive` transitioning to false in the wiring
effect): both refs are restored to their initial values. -/
def deactivateGuard (_s : GuardState) : GuardState := initialGuardState

/-- The per-tick start-time discipline stated by the spec for a tracked
condition: when the condition holds, keep the recorded start (or record the
current time if none); when it does not hold, clear it. -/
def condStart (prev : Option Nat) (now : Nat) (cond : Bool) : Option Nat :=
  if cond then some (prev.getD now) else none

/-- A sample violation record, used to instantiate theorems on concrete
inputs. -/
def sampleViolation : Violation :=
  { type := .TAB_SWITCH, timestamp := 10000,
    message := "Tab switching detected. Please stay in the interview window." }

/-! ## Strike-ledger lemmas -/

theorem addStrike_of_terminated (N : Nat) (hc : Bool) (s : StrikeState)
    (h : s.isTerminated = true) (v : Violation) : addStrike N hc s v = s := by
  simp [addStrike, h]

theorem addStrike_of_active (N : Nat) (hc : Bool) (s : StrikeState)
    (h : s.isTerminated = false) (v : Violation) :
    addStrike N hc s v =
      { strikes := s.strikes + 1,
        violations := s.violations ++ [v],
        notification := some (buildNotification v (s.strikes + 1) N),
        isTerminated := decide (N ≤ s.strikes + 1),
        pendingTermination :=
          if N ≤ s.strikes + 1 then hc else s.pendingTermination } := by
  by_cases hterm : N ≤ s.strikes + 1 <;>
    simp [addStrike, h, hterm]

theorem runStrikes_spec (N : Nat) (hc : Bool) (vs : List Violation)
    (s : StrikeState) (h1 : s.strikes ≤ N)
    (h2 : s.isTerminated = decide (N ≤ s.strikes)) :
    (runStrikes N hc s vs).strikes = min (s.strikes + vs.length) N ∧
    (runStrikes N hc s vs).violations =
      s.violations ++ vs.take (N - s.strikes) ∧
    (runStrikes N hc s vs).isTerminated =
      decide (N ≤ s.strikes + vs.length) := by
  induction vs generalizing s with
  | nil =>
    refine ⟨?_, ?_, ?_⟩
    · simpa [runStrikes] using (Nat.min_eq_left h1).symm
    · simp [runStrikes]
    · simpa [runStrikes] using h2
  | cons v vs ih =>
    by_cases ht : s.isTerminated = true
    · have hsN : s.strikes = N := by
        have := h2 ▸ ht
        have hNs : N ≤ s.strikes := by simpa using this.symm
        omega
      have hrw : runStrikes N hc s (v :: vs) = runStrikes N hc s vs := by
        simp [runStrikes, addStrike_of_terminated N hc s ht v]
      obtain ⟨ha, hb, hcv⟩ := ih s h1 h2
      rw [hrw]
      refine ⟨?_, ?_, ?_⟩
      · rw [ha]; omega
      · rw [hb]; simp [hsN]
      · rw [hcv]
        simp only [List.length_cons]
        exact decide_eq_decide.mpr (by omega)
    · have hf : s.isTerminated = false := by
        cases hb : s.isTerminated
        · rfl
        · exact absurd hb ht
      have hlt : s.strikes < N := by
        have := h2 ▸ hf
        have : ¬ N ≤ s.strikes := by simpa using this.symm
        omega
      have hrw : runStrikes N hc s (v :: vs) =
          runStrikes N hc (addStrike N hc s v) vs := rfl
      rw [hrw, addStrike_of_active N hc s hf v]
      set s' : StrikeState :=
        { strikes := s.strikes + 1,
          violations := s.violations ++ [v],
          notification := some (buildNotification v (s.strikes + 1) N),
          isTerminated := decide (N ≤ s.strikes + 1),
          pendingTermination :=
            if N ≤ s.strikes + 1 then hc else s.pendingTermination } with hs'
      obtain ⟨ha, hb, hcv⟩ := ih s' (by simp [hs']; omega) (by simp [hs'])
      refine ⟨?_, ?_, ?_⟩
      · rw [ha]; simp [hs']; omega
      · rw [hb]
        have hksub : N - s.strikes = (N - (s.strikes + 1)) + 1 := by omega
        simp only [hs', hksub, List.take_succ_cons, List.append_assoc,
          List.singleton_append]
      · rw [hcv]
        simp only [hs', List.length_cons]
        exact decide_eq_decide.mpr (by omega)

/-! ## Claim C1 -/

/-- C1: starting from the initial ledger state with `maxStrikes = N ≥ 1`, any
sequence of `addStrike` calls keeps the strike counter in `[0, N]`; after the
sequence the counter equals `min` of the number of violations accepted and
`N`, the log holds exactly the accepted violations (the first `N`),
termination holds exactly once `N` violations have been accepted, and — once
terminated — every later `addStrike` call and facade `handleViolation` call
is a no-op that appends nothing and changes no ledger state. -/
theorem strikeLedger_bounded_and_terminal (N : Nat) (hc hl : Bool)
    (oc : LogOutcome) (hN : 1 ≤ N) (vs : List Violation) :
    (runStrikes N hc initialStrikeState vs).strikes = min vs.length N ∧
    (runStrikes N hc initialStrikeState vs).strikes ≤ N ∧
    (runStrikes N hc initialStrikeState vs).violations = vs.take N ∧
    ((runStrikes N hc initialStrikeState vs).isTerminated = true ↔
      N ≤ vs.length) ∧
    ((runStrikes N hc initialStrikeState vs).strikes = N →
      (runStrikes N hc initialStrikeState vs).isTerminated = true) ∧
    (∀ (v : Violation) (ty : ViolationType) (ts : Nat) (msg : String),
      (runStrikes N hc initialStrikeState vs).isTerminated = true →
      addStrike N hc (runStrikes N hc initialStrikeState vs) v =
        runStrikes N hc initialStrikeState vs ∧
      handleViolation N hc hl oc (runStrikes N hc initialStrikeState vs)
          ty ts msg =
        (runStrikes N hc initialStrikeState vs, false)) := by
  obtain ⟨ha, hb, hcv⟩ := runStrikes_spec N hc vs initialStrikeState
    (by simp [initialStrikeState])
    (by simp [initialStrikeState]; omega)
  have ha' : (runStrikes N hc initialStrikeState vs).strikes = min vs.length N := by
    simpa [initialStrikeState] using ha
  have hb' : (runStrikes N hc initialStrikeState vs).violations = vs.take N := by
    simpa [initialStrikeState] using hb
  have hcv' : (runStrikes N hc initialStrikeState vs).isTerminated =
      decide (N ≤ vs.length) := by
    simpa [initialStrikeState] using hcv
  refine ⟨ha', by omega, hb', by simp [hcv'], ?_, ?_⟩
  · intro hstr
    rw [hcv']
    simp only [decide_eq_true_eq]
    omega
  · intro v ty ts msg hterm
    exact ⟨addStrike_of_terminated N hc _ hterm v, by simp [handleViolation, hterm]⟩

/-- C1 witness: the theorem instantiated at `maxStrikes = 3` and a concrete
sequence of four violations. -/
theorem strikeLedger_bounded_and_terminal_witness :
    1 ≤ 3 ∧
    (runStrikes 3 true initialStrikeState
      [sampleViolation, sampleViolation, sampleViolation,
       sampleViolation]).strikes =
      min [sampleViolation, sampleViolation, sampleViolation,
        sampleViolation].length 3 ∧
    ((runStrikes 3 true initialStrikeState
      [sampleViolation, sampleViolation, sampleViolation,
       sampleViolation]).isTerminated = true ↔
      3 ≤ [sampleViolation, sampleViolation, sampleViolation,
        sampleViolation].length) :=
  ⟨by decide,
   (strikeLedger_bounded_and_terminal 3 true true .success (by decide)
     [sampleViolation, sampleViolation, sampleViolation, sampleViolation]).1,
   (strikeLedger_bounded_and_terminal 3 true true .success (by decide)
     [sampleViolation, sampleViolation, sampleViolation,
      sampleViolation]).2.2.2.1⟩

/-! ## Claim C2 -/

/-- C2: for `maxStrikes = N ≥ 1` and the `n`-th accepted violation
(`1 ≤ n ≤ N`), the notification built for that strike has severity
`terminal` when `n = N`, `final` when `n = N - 1`, and `warning` for every
earlier `n`, in which case its body states exactly `N - n` warnings
remaining; and the ledger builds the `n`-th accepted strike's notification
with `currentStrikes = n` (an accepted `addStrike` on a state with counter
`n - 1` builds with count `n`). -/
theorem buildNotification_severity_ladder (v : Violation) (n N : Nat)
    (h1 : 1 ≤ n) (h2 : n ≤ N) :
    ((n = N → (buildNotification v n N).severity = .terminal) ∧
     (n + 1 = N → (buildNotification v n N).severity = .final) ∧
     (n + 1 < N →
       (buildNotification v n N).severity = .warning ∧
       (buildNotification v n N).body =
         v.message ++ "\n\n" ++ toString (N - n) ++ " " ++ "warnings" ++
           " remaining.")) ∧
    ∀ (hc : Bool) (s : StrikeState), s.isTerminated = false →
      (addStrike N hc s v).notification =
        some (buildNotification v (s.strikes + 1) N) := by
  refine ⟨⟨?_, ?_, ?_⟩, ?_⟩
  · intro h; subst h
    simp [buildNotification]
  · intro h
    have hT : ¬ N ≤ n := by omega
    have hF : n = N - 1 := by omega
    simp [buildNotification, hT, hF]
    omega
  · intro h
    have hT : ¬ N ≤ n := by omega
    have hF : ¬ n = N - 1 := by omega
    have hR : ¬ N - n = 1 := by omega
    simp [buildNotification, hT, hF, hR]
  · intro hc s hs
    rw [addStrike_of_active N hc s hs v]

/-- C2 witness: the theorem instantiated at the first accepted violation with
`maxStrikes = 4` (a `warning` with 3 warnings remaining). -/
theorem buildNotification_severity_ladder_witness :
    1 ≤ 1 ∧ 1 ≤ 4 ∧ 1 + 1 < 4 ∧
    (buildNotification sampleViolation 1 4).severity = .warning ∧
    (buildNotification sampleViolation 1 4).body =
      sampleViolation.message ++ "\n\n" ++ toString (4 - 1) ++ " " ++
        "warnings" ++ " remaining." :=
  ⟨by decide, by decide, by decide,
   ((buildNotification_severity_ladder sampleViolation 1 4 (by decide)
      (by decide)).1.2.2 (by decide)).1,
   ((buildNotification_severity_ladder sampleViolation 1 4 (by decide)
      (by decide)).1.2.2 (by decide)).2⟩

/-! ## Claim C4 -/

/-- C4: `reset()` from any ledger state (including a terminated state with a
pending termination timer) restores the initial state — counter 0, empty
log, no notification, not terminated — and cancels any pending termination
timer, so the scheduled termination callback can no longer fire after the
reset. -/
theorem reset_restores_initial_and_cancels_timer (s : StrikeState) :
    reset s = initialStrikeState ∧
    (reset s).strikes = 0 ∧
    (reset s).violations = [] ∧
    (reset s).notification = none ∧
    (reset s).isTerminated = false ∧
    (reset s).pendingTermination = false ∧
    fireTermination (reset s) = (reset s, false) :=
  ⟨rfl, rfl, rfl, rfl, rfl, rfl, rfl⟩

/-! ## Claim C9 -/

/-- C9: a notification with severity `terminal` has `dismissible = false` and
`dismissNotification` is a no-op leaving it present; a notification with
severity `warning` or `final` has `dismissible = true` and
`dismissNotification` clears it. -/
theorem dismiss_respects_severity (v : Violation) (n N : Nat)
    (s : StrikeState)
    (hs : s.notification = some (buildNotification v n N)) :
    ((buildNotification v n N).severity = .terminal →
      (buildNotification v n N).dismissible = false ∧
      dismissNotification s = s ∧
      (dismissNotification s).notification =
        some (buildNotification v n N)) ∧
    ((buildNotification v n N).severity = .warning ∨
     (buildNotification v n N).severity = .final →
      (buildNotification v n N).dismissible = true ∧
      (dismissNotification s).notification = none) := by
  by_cases hT : N ≤ n
  · have hdis : (buildNotification v n N).dismissible = false := by
      simp [buildNotification, hT]
    have hsev : (buildNotification v n N).severity = .terminal := by
      simp [buildNotification, hT]
    have hid : dismissNotification s = s := by
      simp [dismissNotification, hs, hdis]
    refine ⟨fun _ => ⟨hdis, hid, by rw [hid]; exact hs⟩, fun hcontr => ?_⟩
    rcases hcontr with h | h <;> simp [hsev] at h
  · have hdis : (buildNotification v n N).dismissible = true := by
      simp [buildNotification, hT]
    have hsev : (buildNotification v n N).severity ≠ .terminal := by
      by_cases hF : n = N - 1
      · simp [buildNotification, hT, hF]
        omega
      · simp [buildNotification, hT, hF]
    refine ⟨fun h => absurd h hsev, fun _ => ⟨hdis, ?_⟩⟩
    simp [dismissNotification, hs, hdis]

/-- C9 witness: the theorem instantiated at a terminal notification (third
strike of three) sitting in the ledger. -/
theorem dismiss_respects_severity_witness :
    ({ initialStrikeState with
        notification := some (buildNotification sampleViolation 3 3) } :
          StrikeState).notification =
      some (buildNotification sampleViolation 3 3) ∧
    (buildNotification sampleViolation 3 3).severity = .terminal ∧
    (buildNotification sampleViolation 3 3).dismissible = false ∧
    dismissNotification
        { initialStrikeState with
          notification := some (buildNotification sampleViolation 3 3) } =
      { initialStrikeState with
        notification := some (buildNotification sampleViolation 3 3) } :=
  ⟨rfl, by decide,
   ((dismiss_respects_severity sampleViolation 3 3
      { initialStrikeState with
        notification := some (buildNotification sampleViolation 3 3) }
      rfl).1 (by decide)).1,
   ((dismiss_respects_severity sampleViolation 3 3
      { initialStrikeState with
        notification := some (buildNotification sampleViolation 3 3) }
      rfl).1 (by decide)).2.1⟩

/-! ## Claim C10 -/

/-- C10 counterexample: with a configured `onViolationLogged` that throws
synchronously, the exception escapes `handleViolation` to its caller — the
source wraps the call as `Promise.resolve(onViolationLogged(violation))`, so
a synchronous throw happens before any `.catch` handler is attached. -/
theorem handleViolation_syncThrow_escapes :
    (handleViolation 3 true true .throwsSync initialStrikeState
      .TAB_SWITCH 10000 "Tab switching detected").2 = true := rfl

/-- C10 (amended): the ledger state produced by `handleViolation` is
identical whichever way the configured `onViolationLogged` behaves, and an
asynchronous rejection (or success) is fully swallowed — nothing propagates;
but a synchronous throw from a configured logger escapes `handleViolation`
to its caller, after the ledger state has already been updated by
`addStrike`. -/
theorem handleViolation_logger_isolated (N : Nat) (hc hl : Bool)
    (o1 o2 : LogOutcome) (s : StrikeState) (ty : ViolationType) (ts : Nat)
    (msg : String) :
    (handleViolation N hc hl o1 s ty ts msg).1 =
      (handleViolation N hc hl o2 s ty ts msg).1 ∧
    (handleViolation N hc hl .rejects s ty ts msg).2 = false ∧
    (handleViolation N hc hl .success s ty ts msg).2 = false ∧
    (s.isTerminated = false → hl = true →
      (handleViolation N hc hl .throwsSync s ty ts msg).2 = true ∧
      (handleViolation N hc hl .throwsSync s ty ts msg).1 =
        addStrike N hc s { type := ty, timestamp := ts, message := msg }) := by
  by_cases hter : s.isTerminated = true
  · simp [handleViolation, hter]
  · have hf : s.isTerminated = false := by
      cases h : s.isTerminated
      · rfl
      · exact absurd h hter
    simp [handleViolation, hf]

/-- C10 witness: the amended theorem instantiated at the initial ledger state
with a configured logger. -/
theorem handleViolation_logger_isolated_witness :
    initialStrikeState.isTerminated = false ∧
    (handleViolation 3 true true .throwsSync initialStrikeState .NO_FACE
      11000 "Face not visible").1 =
      addStrike 3 true initialStrikeState
        { type := .NO_FACE, timestamp := 11000,
          message := "Face not visible" } ∧
    (handleViolation 3 true true .rejects initialStrikeState .NO_FACE
      11000 "Face not visible").2 = false :=
  ⟨rfl,
   ((handleViolation_logger_isolated 3 true true .success .rejects
      initialStrikeState .NO_FACE 11000 "Face not visible").2.2.2 rfl
      rfl).2,
   (handleViolation_logger_isolated 3 true true .success .rejects
     initialStrikeState .NO_FACE 11000 "Face not visible").2.1⟩

/-! ## Claim C5 -/

/-- C5: while the browser guard is active, the first document-hidden event
produces no violation and exactly one `TAB_SWITCH_GRACE` notice; every later
document-hidden event produces exactly one `TAB_SWITCH` violation unless it
falls within 7.5 s of the previous violation firing (the firing time is
recorded exactly when a violation fires); deactivating the guard clears the
grace flag and cooldown timestamp, so after reactivation the first hidden
event is again a grace event. -/
theorem browserGuard_grace_and_cooldown :
    (∀ t : Nat, handleVisibilityChange true initialGuardState t true =
      ({ lastViolationTime := 0, hasSeenTabWarning := true },
        some .graceNotice)) ∧
    (∀ (s : GuardState) (t : Nat), s.hasSeenTabWarning = true →
      (handleVisibilityChange true s t true).2 =
        (if s.lastViolationTime + TAB_SWITCH_COOLDOWN_MS ≤ t then
          some .tabSwitchViolation else none) ∧
      (handleVisibilityChange true s t true).1.lastViolationTime =
        (if s.lastViolationTime + TAB_SWITCH_COOLDOWN_MS ≤ t then t
         else s.lastViolationTime) ∧
      (handleVisibilityChange true s t true).1.hasSeenTabWarning = true) ∧
    (∀ s : GuardState, deactivateGuard s = initialGuardState) ∧
    (∀ (s : GuardState) (t : Nat),
      handleVisibilityChange true (deactivateGuard s) t true =
        ({ lastViolationTime := 0, hasSeenTabWarning := true },
          some .graceNotice)) := by
  refine ⟨fun t => rfl, ?_, fun s => rfl, fun s t => rfl⟩
  intro s t hseen
  have hg : (TAB_SWITCH_GRACE_ENABLED && !s.hasSeenTabWarning) = false := by
    simp [TAB_SWITCH_GRACE_ENABLED, hseen]
  by_cases hcool : t - s.lastViolationTime < TAB_SWITCH_COOLDOWN_MS
  · have hle : ¬ s.lastViolationTime + TAB_SWITCH_COOLDOWN_MS ≤ t := by
      simp only [TAB_SWITCH_COOLDOWN_MS] at hcool ⊢; omega
    simp [handleVisibilityChange, hg, triggerViolation, hcool, hle, hseen]
  · have hle : s.lastViolationTime + TAB_SWITCH_COOLDOWN_MS ≤ t := by
      simp only [TAB_SWITCH_COOLDOWN_MS] at hcool ⊢; omega
    simp [handleVisibilityChange, hg, triggerViolation, hcool, hle, hseen]

/-- C5 witness: the theorem instantiated at a post-grace state 5 s after the
previous firing (suppressed) — the hypothesis being the consumed grace
flag. -/
theorem browserGuard_grace_and_cooldown_witness :
    ({ lastViolationTime := 10000, hasSeenTabWarning := true } :
      GuardState).hasSeenTabWarning = true ∧
    (handleVisibilityChange true
      { lastViolationTime := 10000, hasSeenTabWarning := true } 15000
      true).2 =
      (if 10000 + TAB_SWITCH_COOLDOWN_MS ≤ 15000 then
        some .tabSwitchViolation else none) :=
  ⟨rfl,
   (browserGuard_grace_and_cooldown.2.1
     { lastViolationTime := 10000, hasSeenTabWarning := true } 15000
     rfl).1⟩

/-! ## Tracker lemmas -/

theorem snd_ite_fire {α : Type} (b : Bool) (x y : α) :
    (if b = true then (x, true) else (y, false)).2 = b := by
  cases b <;> simp

theorem startTiming_lastFired (e : TrackerEntry) (now : Nat) :
    (startTiming e now).lastFiredTime = e.lastFiredTime := by
  cases h : e.startTime <;> simp [startTiming, h]

theorem startTiming_startTime (e : TrackerEntry) (now : Nat) :
    (startTiming e now).startTime = some (e.startTime.getD now) := by
  cases h : e.startTime <;> simp [startTiming, h]

theorem shouldFire_zero (e : TrackerEntry) (now : Nat) :
    shouldFire e now 0 = decide (e.lastFiredTime + COOLDOWN_MS ≤ now) := by
  have h0 : getDuration e now ≥ 0 := Nat.zero_le _
  simp only [shouldFire, h0, decide_eq_true_eq, COOLDOWN_MS]
  simp only [ge_iff_le, Nat.zero_le, decide_True, Bool.true_and]
  exact decide_eq_decide.mpr (by omega)

theorem multipleFacesCheck_fired (e : TrackerEntry) (now fc : Nat)
    (h : fc > 1) :
    (multipleFacesCheck e now fc).2 =
      decide (e.lastFiredTime + COOLDOWN_MS ≤ now) := by
  have hsf := shouldFire_zero (startTiming e now) now
  rw [startTiming_lastFired] at hsf
  rw [← hsf]
  simp only [multipleFacesCheck, MULTIPLE_FACES_THRESHOLD]
  rw [if_pos h]
  exact snd_ite_fire _ _ _

theorem cameraStatusEvent_fired (e : TrackerEntry) (now : Nat) :
    (cameraStatusEvent e now false).2 =
      decide (e.lastFiredTime + COOLDOWN_MS ≤ now) := by
  rw [← shouldFire_zero]
  simp only [cameraStatusEvent, CAMERA_OFF_THRESHOLD, Bool.false_eq_true,
    if_false]
  exact snd_ite_fire _ _ _

/-! ## Claim C6 -/

/-- C6: the `MULTIPLE_FACES` condition (`faceCount > 1`) and the `CAMERA_OFF`
condition (hardware track not live-and-enabled) have a zero sustain
threshold: a qualifying sample or event fires exactly when at least 7.5 s
(`COOLDOWN_MS`) have elapsed since that kind last fired — so the very next
qualifying occurrence fires when the cooldown is clear, and a repeat of the
same kind within 7.5 s of the recorded firing is suppressed. -/
theorem instantKinds_fire_iff_cooldown (e : TrackerEntry)
    (now faceCount t1 t2 : Nat) :
    (faceCount > 1 →
      (multipleFacesCheck e now faceCount).2 =
        decide (e.lastFiredTime + COOLDOWN_MS ≤ now)) ∧
    (cameraStatusEvent e now false).2 =
      decide (e.lastFiredTime + COOLDOWN_MS ≤ now) ∧
    (multipleFacesCheck (markFired e t1) t2 2).2 =
      decide (t1 + COOLDOWN_MS ≤ t2) ∧
    (cameraStatusEvent (markFired e t1) t2 false).2 =
      decide (t1 + COOLDOWN_MS ≤ t2) :=
  ⟨fun h => multipleFacesCheck_fired e now faceCount h,
   cameraStatusEvent_fired e now,
   multipleFacesCheck_fired (markFired e t1) t2 2 (by omega),
   cameraStatusEvent_fired (markFired e t1) t2⟩

/-- C6 witness: a fresh tracker at `t = 10000` fires on a two-face sample
and on a camera-off event; after firing at `t1 = 10000` a repeat at
`t2 = 15000` (within the 7.5 s cooldown) is suppressed. -/
theorem instantKinds_fire_iff_cooldown_witness :
    (2 : Nat) > 1 ∧
    (multipleFacesCheck initialEntry 10000 2).2 =
      decide (initialEntry.lastFiredTime + COOLDOWN_MS ≤ 10000) ∧
    (multipleFacesCheck (markFired initialEntry 10000) 15000 2).2 =
      decide (10000 + COOLDOWN_MS ≤ 15000) :=
  ⟨by decide,
   (instantKinds_fire_iff_cooldown initialEntry 10000 2 10000 15000).1
     (by decide),
   (instantKinds_fire_iff_cooldown initialEntry 10000 2 10000
     15000).2.2.1⟩

/-! ## Claim C7 -/

/-- C7 counterexample: a camera-hardware event whose `CAMERA_OFF` condition
is true (track not live-and-enabled) — it even fires the violation — leaves
that kind's `start_time` null, because `updateCameraStatus` never calls
`startTiming`. -/
theorem cameraOff_event_leaves_startTime_null :
    (cameraStatusEvent initialEntry 10000 false).2 = true ∧
    (cameraStatusEvent initialEntry 10000 false).1.startTime = none :=
  ⟨rfl, rfl⟩

theorem fst_ite_fire_startTime (b : Bool) (e1 : TrackerEntry) (now : Nat) :
    (if b = true then (markFired e1 now, true)
     else (e1, false)).1.startTime = e1.startTime := by
  cases b <;> simp [markFired]

theorem noFaceCheck_startTime (e : TrackerEntry) (now fc : Nat)
    (cam : Bool) :
    (noFaceCheck e now fc cam).1.startTime =
      condStart e.startTime now (decide (fc = 0) && cam) := by
  by_cases hb : (decide (fc = 0) && cam) = true
  · have h1 : noFaceCheck e now fc cam =
        (if shouldFire (startTiming e now) now NO_FACE_THRESHOLD = true then
          (markFired (startTiming e now) now, true)
         else (startTiming e now, false)) := by
      unfold noFaceCheck
      rw [if_pos hb]
    rw [h1, fst_ite_fire_startTime, startTiming_startTime]
    simp [condStart, hb]
  · rw [Bool.not_eq_true] at hb
    simp [noFaceCheck, hb, resetTiming, condStart]

theorem multipleFacesCheck_startTime (e : TrackerEntry) (now fc : Nat) :
    (multipleFacesCheck e now fc).1.startTime =
      condStart e.startTime now (decide (fc > 1)) := by
  by_cases hb : fc > 1
  · have h1 : multipleFacesCheck e now fc =
        (if shouldFire (startTiming e now) now MULTIPLE_FACES_THRESHOLD
            = true then
          (markFired (startTiming e now) now, true)
         else (startTiming e now, false)) := by
      unfold multipleFacesCheck
      rw [if_pos hb]
    rw [h1, fst_ite_fire_startTime, startTiming_startTime]
    simp [condStart, hb]
  · simp [multipleFacesCheck, hb, resetTiming, condStart]

theorem lookingAwayCheck_startTime (e : TrackerEntry) (now fc : Nat)
    (pose : HeadPose) :
    (lookingAwayCheck e now fc pose).1.startTime =
      condStart e.startTime now (decide (fc = 1) && isSuspicious pose) := by
  by_cases hfc : fc = 1
  · by_cases hsp : isSuspicious pose = true
    · have h1 : lookingAwayCheck e now fc pose =
          (if shouldFire (startTiming e now) now LOOKING_AWAY_THRESHOLD
              = true then
            (markFired (startTiming e now) now, true)
           else (startTiming e now, false)) := by
        unfold lookingAwayCheck
        rw [if_pos hfc, if_pos hsp]
      rw [h1, fst_ite_fire_startTime, startTiming_startTime]
      simp [condStart, hfc, hsp]
    · rw [Bool.not_eq_true] at hsp
      simp [lookingAwayCheck, hfc, hsp, resetTiming, condStart]
  · simp [lookingAwayCheck, hfc, resetTiming, condStart]

theorem cameraStatusEvent_startTime_off (e : TrackerEntry) (now : Nat) :
    (cameraStatusEvent e now false).1.startTime = e.startTime := by
  have h1 : cameraStatusEvent e now false =
      (if shouldFire e now CAMERA_OFF_THRESHOLD = true then
        (markFired e now, true)
       else (e, false)) := by
    unfold cameraStatusEvent
    rw [if_neg (by simp)]
  rw [h1, fst_ite_fire_startTime]

theorem cameraStatusEvent_startTime_on (e : TrackerEntry) (now : Nat) :
    (cameraStatusEvent e now true).1.startTime = none := by
  simp [cameraStatusEvent, resetTiming]

theorem runLookingAway_startTime (e : TrackerEntry)
    (ticks : List (Nat × Nat × HeadPose)) :
    (runLookingAway e ticks).1.startTime =
      ticks.foldl
        (fun acc x =>
          condStart acc x.1 (decide (x.2.1 = 1) && isSuspicious x.2.2))
        e.startTime := by
  induction ticks generalizing e with
  | nil => rfl
  | cons x rest ih =>
    obtain ⟨t, fc, p⟩ := x
    have hstep := lookingAwayCheck_startTime e t fc p
    simp only [runLookingAway, List.foldl_cons]
    rw [ih, hstep]

/-- C7 (amended): for the kinds processed by the detection loop (`NO_FACE`,
`MULTIPLE_FACES`, `LOOKING_AWAY`), every tick leaves `start_time` set iff
the kind's condition holds at that tick — retaining the recorded start while
the condition stays true and clearing it the instant it is false, so over a
run `start_time` is non-null iff the condition has been continuously true
since that time; the `CAMERA_OFF` kind driven by the hardware-track path,
however, never gets `start_time` set: the track-off path leaves it untouched
(never calling `startTiming`) and the track-on path clears it. -/
theorem tracker_startTime_follows_condition (e : TrackerEntry)
    (now faceCount : Nat) (pose : HeadPose) (cam : Bool)
    (ticks : List (Nat × Nat × HeadPose)) :
    (noFaceCheck e now faceCount cam).1.startTime =
      condStart e.startTime now (decide (faceCount = 0) && cam) ∧
    (multipleFacesCheck e now faceCount).1.startTime =
      condStart e.startTime now (decide (faceCount > 1)) ∧
    (lookingAwayCheck e now faceCount pose).1.startTime =
      condStart e.startTime now
        (decide (faceCount = 1) && isSuspicious pose) ∧
    (cameraStatusEvent e now false).1.startTime = e.startTime ∧
    (cameraStatusEvent e now true).1.startTime = none ∧
    (runLookingAway e ticks).1.startTime =
      ticks.foldl
        (fun acc x =>
          condStart acc x.1 (decide (x.2.1 = 1) && isSuspicious x.2.2))
        e.startTime :=
  ⟨noFaceCheck_startTime e now faceCount cam,
   multipleFacesCheck_startTime e now faceCount,
   lookingAwayCheck_startTime e now faceCount pose,
   cameraStatusEvent_startTime_off e now,
   cameraStatusEvent_startTime_on e now,
   runLookingAway_startTime e ticks⟩

/-! ## Looking-away run lemmas -/

theorem lookingAwayCheck_first (t0 : Nat) (p : HeadPose)
    (hp : isSuspicious p = true) :
    lookingAwayCheck initialEntry t0 1 p =
      ({ startTime := some t0, lastFiredTime := 0 }, false) := by
  have hd : ¬ (2000 ≤ t0 - t0) := by omega
  have hsf : shouldFire { startTime := some t0, lastFiredTime := 0 } t0
      LOOKING_AWAY_THRESHOLD = false := by
    simp [shouldFire, getDuration, LOOKING_AWAY_THRESHOLD, hd]
  simp [lookingAwayCheck, hp, startTiming, initialEntry, hsf]

theorem runLookingAway_hold_nofire (t0 lf : Nat)
    (ts : List (Nat × Nat × HeadPose))
    (hc : ∀ x ∈ ts, x.2.1 = 1 ∧ isSuspicious x.2.2 = true)
    (hlt : ∀ x ∈ ts,
      x.1 < t0 + LOOKING_AWAY_THRESHOLD ∨ x.1 < lf + COOLDOWN_MS) :
    runLookingAway { startTime := some t0, lastFiredTime := lf } ts =
      ({ startTime := some t0, lastFiredTime := lf }, []) := by
  induction ts with
  | nil => rfl
  | cons x rest ih =>
    obtain ⟨t, fc, p⟩ := x
    obtain ⟨hfc, hsp⟩ := hc _ (List.mem_cons_self _ _)
    have hx := hlt _ (List.mem_cons_self _ _)
    have hsf : shouldFire { startTime := some t0, lastFiredTime := lf } t
        LOOKING_AWAY_THRESHOLD = false := by
      rcases hx with h | h
      · have hd : ¬ (2000 ≤ t - t0) := by
          simp only [LOOKING_AWAY_THRESHOLD] at h; omega
        simp [shouldFire, getDuration, LOOKING_AWAY_THRESHOLD, hd]
      · have hd : ¬ (7500 ≤ t - lf) := by
          simp only [COOLDOWN_MS] at h; omega
        simp [shouldFire, getDuration, COOLDOWN_MS, hd]
    have hstep : lookingAwayCheck
        { startTime := some t0, lastFiredTime := lf } t fc p =
        ({ startTime := some t0, lastFiredTime := lf }, false) := by
      subst hfc
      simp [lookingAwayCheck, hsp, startTiming, hsf]
    have ihr := ih (fun y hy => hc _ (List.mem_cons_of_mem _ hy))
      (fun y hy => hlt _ (List.mem_cons_of_mem _ hy))
    simp [runLookingAway, hstep, ihr]

theorem runLookingAway_window_one (t0 : Nat)
    (ts : List (Nat × Nat × HeadPose))
    (h0 : COOLDOWN_MS ≤ t0)
    (hc : ∀ x ∈ ts, x.2.1 = 1 ∧ isSuspicious x.2.2 = true)
    (hw : ∀ x ∈ ts, t0 ≤ x.1 ∧ x.1 ≤ t0 + 2100)
    (hex : ∃ x ∈ ts, t0 + LOOKING_AWAY_THRESHOLD ≤ x.1) :
    (runLookingAway { startTime := some t0, lastFiredTime := 0 } ts).2.length
      = 1 := by
  induction ts with
  | nil => simp at hex
  | cons x rest ih =>
    obtain ⟨t, fc, p⟩ := x
    obtain ⟨hfc, hsp⟩ := hc _ (List.mem_cons_self _ _)
    obtain ⟨hge, hle⟩ := hw _ (List.mem_cons_self _ _)
    by_cases hfire : t0 + LOOKING_AWAY_THRESHOLD ≤ t
    · have h1 : 2000 ≤ t - t0 := by
        simp only [LOOKING_AWAY_THRESHOLD] at hfire; omega
      have h2 : 7500 ≤ t := by
        simp only [COOLDOWN_MS] at h0; omega
      have hsf : shouldFire { startTime := some t0, lastFiredTime := 0 } t
          LOOKING_AWAY_THRESHOLD = true := by
        simp [shouldFire, getDuration, LOOKING_AWAY_THRESHOLD, COOLDOWN_MS,
          h1, h2]
      have hstep : lookingAwayCheck
          { startTime := some t0, lastFiredTime := 0 } t fc p =
          ({ startTime := some t0, lastFiredTime := t }, true) := by
        subst hfc
        simp [lookingAwayCheck, hsp, startTiming, hsf, markFired]
      have hrest : runLookingAway
          { startTime := some t0, lastFiredTime := t } rest =
          ({ startTime := some t0, lastFiredTime := t }, []) := by
        apply runLookingAway_hold_nofire
        · exact fun y hy => hc _ (List.mem_cons_of_mem _ hy)
        · intro y hy
          right
          have hy2 := (hw _ (List.mem_cons_of_mem _ hy)).2
          simp only [COOLDOWN_MS, LOOKING_AWAY_THRESHOLD] at *
          omega
      simp [runLookingAway, hstep, hrest]
    · have hd : ¬ (2000 ≤ t - t0) := by
        simp only [LOOKING_AWAY_THRESHOLD] at hfire; omega
      have hsf : shouldFire { startTime := some t0, lastFiredTime := 0 } t
          LOOKING_AWAY_THRESHOLD = false := by
        simp [shouldFire, getDuration, LOOKING_AWAY_THRESHOLD, hd]
      have hstep : lookingAwayCheck
          { startTime := some t0, lastFiredTime := 0 } t fc p =
          ({ startTime := some t0, lastFiredTime := 0 }, false) := by
        subst hfc
        simp [lookingAwayCheck, hsp, startTiming, hsf]
      have hex' : ∃ y ∈ rest, t0 + LOOKING_AWAY_THRESHOLD ≤ y.1 := by
        rcases hex with ⟨y, hy, hyt⟩
        rcases List.mem_cons.mp hy with rfl | hmem
        · exact absurd hyt hfire
        · exact ⟨y, hmem, hyt⟩
      have ihr := ih (fun y hy => hc _ (List.mem_cons_of_mem _ hy))
        (fun y hy => hw _ (List.mem_cons_of_mem _ hy)) hex'
      simp [runLookingAway, hstep, ihr]

theorem lookingAwayCheck_fired_lastFired (e : TrackerEntry) (t fc : Nat)
    (p : HeadPose) :
    ((lookingAwayCheck e t fc p).2 = true →
      e.lastFiredTime + COOLDOWN_MS ≤ t ∧
      (lookingAwayCheck e t fc p).1.lastFiredTime = t) ∧
    ((lookingAwayCheck e t fc p).2 = false →
      (lookingAwayCheck e t fc p).1.lastFiredTime = e.lastFiredTime) := by
  by_cases hfc : fc = 1
  · by_cases hsp : isSuspicious p = true
    · by_cases hsf : shouldFire (startTiming e t) t LOOKING_AWAY_THRESHOLD
          = true
      · have hcool : e.lastFiredTime + COOLDOWN_MS ≤ t := by
          have hsf2 : LOOKING_AWAY_THRESHOLD ≤ getDuration (startTiming e t) t ∧
              COOLDOWN_MS ≤ t - (startTiming e t).lastFiredTime := by
            simpa [shouldFire] using hsf
          have h2 := hsf2.2
          rw [startTiming_lastFired] at h2
          simp only [COOLDOWN_MS] at h2 ⊢
          omega
        have hstep : lookingAwayCheck e t fc p =
            (markFired (startTiming e t) t, true) := by
          subst hfc
          simp [lookingAwayCheck, hsp, hsf]
        rw [hstep]
        exact ⟨fun _ => ⟨hcool, rfl⟩, fun h => by simp at h⟩
      · have hsf' : shouldFire (startTiming e t) t LOOKING_AWAY_THRESHOLD
            = false := by
          rw [Bool.not_eq_true] at hsf; exact hsf
        have hstep : lookingAwayCheck e t fc p =
            (startTiming e t, false) := by
          subst hfc
          simp [lookingAwayCheck, hsp, hsf']
        rw [hstep]
        exact ⟨fun h => by simp at h,
          fun _ => startTiming_lastFired e t⟩
    · rw [Bool.not_eq_true] at hsp
      have hstep : lookingAwayCheck e t fc p = (resetTiming e, false) := by
        subst hfc
        simp [lookingAwayCheck, hsp]
      rw [hstep]
      exact ⟨fun h => by simp at h, fun _ => rfl⟩
  · have hstep : lookingAwayCheck e t fc p = (resetTiming e, false) := by
      simp [lookingAwayCheck, hfc]
    rw [hstep]
    exact ⟨fun h => by simp at h, fun _ => rfl⟩

theorem runLookingAway_fires_cooldown (e : TrackerEntry)
    (ts : List (Nat × Nat × HeadPose)) :
    (∀ t ∈ (runLookingAway e ts).2, e.lastFiredTime + COOLDOWN_MS ≤ t) ∧
    List.Chain' (fun a b => a + COOLDOWN_MS ≤ b) (runLookingAway e ts).2 := by
  induction ts generalizing e with
  | nil => simp [runLookingAway]
  | cons x rest ih =>
    obtain ⟨t, fc, p⟩ := x
    by_cases hf : (lookingAwayCheck e t fc p).2 = true
    · obtain ⟨hcool, hlast⟩ :=
        (lookingAwayCheck_fired_lastFired e t fc p).1 hf
      obtain ⟨ihall, ihchain⟩ := ih (lookingAwayCheck e t fc p).1
      have hrun : (runLookingAway e ((t, fc, p) :: rest)).2 =
          t :: (runLookingAway (lookingAwayCheck e t fc p).1 rest).2 := by
        simp [runLookingAway, hf]
      rw [hrun]
      rw [hlast] at ihall
      refine ⟨?_, ?_⟩
      · intro u hu
        rcases List.mem_cons.mp hu with rfl | hmem
        · exact hcool
        · have := ihall u hmem
          simp only [COOLDOWN_MS] at *
          omega
      · rw [List.chain'_cons']
        exact ⟨fun b hb => ihall b (List.mem_of_mem_head? hb), ihchain⟩
    · have hf' : (lookingAwayCheck e t fc p).2 = false := by
        rw [Bool.not_eq_true] at hf; exact hf
      have hlast := (lookingAwayCheck_fired_lastFired e t fc p).2 hf'
      obtain ⟨ihall, ihchain⟩ := ih (lookingAwayCheck e t fc p).1
      have hrun : (runLookingAway e ((t, fc, p) :: rest)).2 =
          (runLookingAway (lookingAwayCheck e t fc p).1 rest).2 := by
        simp [runLookingAway, hf']
      rw [hrun]
      rw [hlast] at ihall
      exact ⟨ihall, ihchain⟩

theorem runLookingAway_benign (e : TrackerEntry)
    (ticks : List (Nat × Nat × HeadPose))
    (h : ∀ x ∈ ticks, x.2.1 = 1 ∧ isSuspicious x.2.2 = false) :
    (runLookingAway e ticks).2 = [] := by
  induction ticks generalizing e with
  | nil => rfl
  | cons x rest ih =>
    obtain ⟨t, fc, p⟩ := x
    obtain ⟨hfc, hsp⟩ := h _ (List.mem_cons_self _ _)
    have hstep : lookingAwayCheck e t fc p = (resetTiming e, false) := by
      subst hfc
      simp [lookingAwayCheck, hsp]
    have ihr := ih (resetTiming e)
      (fun y hy => h _ (List.mem_cons_of_mem _ hy))
    simp [runLookingAway, hstep, ihr]

theorem runLookingAway_append (e : TrackerEntry)
    (l1 l2 : List (Nat × Nat × HeadPose)) :
    runLookingAway e (l1 ++ l2) =
      ((runLookingAway (runLookingAway e l1).1 l2).1,
       (runLookingAway e l1).2 ++
         (runLookingAway (runLookingAway e l1).1 l2).2) := by
  induction l1 generalizing e with
  | nil => simp [runLookingAway]
  | cons x rest ih =>
    obtain ⟨t, fc, p⟩ := x
    simp [runLookingAway, ih, List.append_assoc]

/-! ## Claim C3 -/

/-- C3: for a single face holding a suspicious pose — if the pose condition
holds for strictly less than the 2 s threshold and then clears, no
`LOOKING_AWAY` violation fires and the accumulated duration resets to zero;
if it holds continuously past 2 s (within a window shorter than the
cooldown, e.g. the spec's 2.1 s scenario) exactly one violation fires; and
in any detection run consecutive `LOOKING_AWAY` firings are at least 7.5 s
apart, so no second firing occurs within 7.5 s of the previous one. -/
theorem lookingAway_hysteresis :
    (∀ (t0 : Nat) (p : HeadPose) (rest : List (Nat × Nat × HeadPose))
       (tc : Nat) (pc : HeadPose),
      isSuspicious p = true →
      (∀ x ∈ rest, x.2.1 = 1 ∧ isSuspicious x.2.2 = true) →
      (∀ x ∈ rest, x.1 < t0 + LOOKING_AWAY_THRESHOLD) →
      isSuspicious pc = false →
      (runLookingAway initialEntry
        ((t0, 1, p) :: rest ++ [(tc, 1, pc)])).2 = [] ∧
      (runLookingAway initialEntry
        ((t0, 1, p) :: rest ++ [(tc, 1, pc)])).1.startTime = none ∧
      getDuration
        (runLookingAway initialEntry
          ((t0, 1, p) :: rest ++ [(tc, 1, pc)])).1 tc = 0) ∧
    (∀ (t0 : Nat) (p : HeadPose) (rest : List (Nat × Nat × HeadPose)),
      isSuspicious p = true →
      COOLDOWN_MS ≤ t0 →
      (∀ x ∈ rest, x.2.1 = 1 ∧ isSuspicious x.2.2 = true) →
      (∀ x ∈ rest, t0 ≤ x.1 ∧ x.1 ≤ t0 + 2100) →
      (∃ x ∈ rest, t0 + LOOKING_AWAY_THRESHOLD ≤ x.1) →
      (runLookingAway initialEntry ((t0, 1, p) :: rest)).2.length = 1) ∧
    (∀ ticks : List (Nat × Nat × HeadPose),
      List.Chain' (fun a b => a + COOLDOWN_MS ≤ b)
        (runLookingAway initialEntry ticks).2) := by
  refine ⟨?_, ?_, fun ticks =>
    (runLookingAway_fires_cooldown initialEntry ticks).2⟩
  · intro t0 p rest tc pc hp hcrest hlt hpc
    have h1 := lookingAwayCheck_first t0 p hp
    have hhold := runLookingAway_hold_nofire t0 0 rest hcrest
      (fun x hx => Or.inl (hlt x hx))
    have hlast : lookingAwayCheck
        { startTime := some t0, lastFiredTime := 0 } tc 1 pc =
        ({ startTime := none, lastFiredTime := 0 }, false) := by
      simp [lookingAwayCheck, hpc, resetTiming]
    have hrun : runLookingAway initialEntry
        ((t0, 1, p) :: rest ++ [(tc, 1, pc)]) =
        ({ startTime := none, lastFiredTime := 0 }, []) := by
      simp [runLookingAway, h1, runLookingAway_append, hhold, hlast]
    refine ⟨by rw [hrun], by rw [hrun], by rw [hrun]; rfl⟩
  · intro t0 p rest hp h0 hcrest hw hex
    have h1 := lookingAwayCheck_first t0 p hp
    have hone := runLookingAway_window_one t0 rest h0 hcrest hw hex
    simp [runLookingAway, h1, hone]

/-- C3 witness: the theorem instantiated at a 1.9 s hold that clears
(no firing, duration reset), a sustained 2 s hold (exactly one firing), and
a run whose two firings are 7.5 s apart. -/
theorem lookingAway_hysteresis_witness :
    isSuspicious HeadPose.LOOKING_DOWN = true ∧
    (runLookingAway initialEntry
      ((10000, 1, HeadPose.LOOKING_DOWN) ::
        [(11000, 1, HeadPose.LOOKING_DOWN),
         (11900, 1, HeadPose.LOOKING_DOWN)] ++
        [(12000, 1, HeadPose.CENTER)])).2 = [] ∧
    (runLookingAway initialEntry
      ((10000, 1, HeadPose.LOOKING_DOWN) ::
        [(11000, 1, HeadPose.LOOKING_DOWN),
         (12000, 1, HeadPose.LOOKING_DOWN)])).2.length = 1 ∧
    List.Chain' (fun a b => a + COOLDOWN_MS ≤ b)
      (runLookingAway initialEntry
        [(10000, 1, HeadPose.LOOKING_DOWN),
         (12000, 1, HeadPose.LOOKING_DOWN),
         (19500, 1, HeadPose.LOOKING_DOWN)]).2 :=
  ⟨by decide,
   (lookingAway_hysteresis.1 10000 HeadPose.LOOKING_DOWN
     [(11000, 1, HeadPose.LOOKING_DOWN), (11900, 1, HeadPose.LOOKING_DOWN)]
     12000 HeadPose.CENTER (by decide) (by decide) (by decide)
     (by decide)).1,
   lookingAway_hysteresis.2.1 10000 HeadPose.LOOKING_DOWN
     [(11000, 1, HeadPose.LOOKING_DOWN), (12000, 1, HeadPose.LOOKING_DOWN)]
     (by decide) (by decide) (by decide) (by decide) (by decide),
   lookingAway_hysteresis.2.2
     [(10000, 1, HeadPose.LOOKING_DOWN), (12000, 1, HeadPose.LOOKING_DOWN),
      (19500, 1, HeadPose.LOOKING_DOWN)]⟩

/-! ## Claim C8 -/

/-- C8: an upward nose drop below the `-0.1` pitch threshold classifies as
`LOOKING_UP` before any left/right yaw test is applied, and a detection run
in which exactly one face is present with pose `LOOKING_UP` never produces a
`LOOKING_AWAY` violation, regardless of how long the pose is sustained. -/
theorem lookingUp_is_benign (nose leftEar rightEar : Point)
    (hup : nose.y - (leftEar.y + rightEar.y) / 2 < PITCH_UP)
    (ticks : List (Nat × Nat × HeadPose))
    (hticks : ∀ x ∈ ticks, x.2.1 = 1 ∧ x.2.2 = HeadPose.LOOKING_UP) :
    (analyzeHeadPose nose leftEar rightEar).1 = HeadPose.LOOKING_UP ∧
    (runLookingAway initialEntry ticks).2 = [] := by
  refine ⟨?_, ?_⟩
  · simp [analyzeHeadPose, hup]
  · exact runLookingAway_benign initialEntry ticks
      (fun x hx => ⟨(hticks x hx).1, by rw [(hticks x hx).2]; rfl⟩)

/-- C8 witness: a concrete face with the nose half a face-height above the
ear midline classifies `LOOKING_UP`, and a 90 s `LOOKING_UP` run fires
nothing. -/
theorem lookingUp_is_benign_witness :
    ((0 : ℚ) - ((1 / 2 : ℚ) + (1 / 2 : ℚ)) / 2 < PITCH_UP) ∧
    (analyzeHeadPose { x := 1 / 2, y := 0 } { x := 0, y := 1 / 2 }
      { x := 1, y := 1 / 2 }).1 = HeadPose.LOOKING_UP ∧
    (runLookingAway initialEntry
      [(10000, 1, HeadPose.LOOKING_UP), (50000, 1, HeadPose.LOOKING_UP),
       (100000, 1, HeadPose.LOOKING_UP)]).2 = [] :=
  ⟨by norm_num [PITCH_UP],
   (lookingUp_is_benign { x := 1 / 2, y := 0 } { x := 0, y := 1 / 2 }
     { x := 1, y := 1 / 2 } (by norm_num [PITCH_UP])
     [(10000, 1, HeadPose.LOOKING_UP), (50000, 1, HeadPose.LOOKING_UP),
      (100000, 1, HeadPose.LOOKING_UP)] (by decide)).1,
   (lookingUp_is_benign { x := 1 / 2, y := 0 } { x := 0, y := 1 / 2 }
     { x := 1, y := 1 / 2 } (by norm_num [PITCH_UP])
     [(10000, 1, HeadPose.LOOKING_UP), (50000, 1, HeadPose.LOOKING_UP),
      (100000, 1, HeadPose.LOOKING_UP)] (by decide)).2⟩

end Wavvy
